import Mathlib

/-!
# Xbox Series S|X gamepad driver (`my_driver.c`)

A shallow embedding of the report decoder `xbox_parse_input`, the receive
completion callback `xbox_irq_in` and the attach entry point `xbox_probe`,
followed by the properties established about them.

Conventions of the embedding:

* the receive buffer `u8 *data` is a list of bytes; an element is reduced
  modulo 256 when it is read, as a `u8` is;
* `len` is the C `int` that `urb->actual_length` is converted to, an `Int`;
* the calls the driver makes into the input layer are recorded, in program
  order, as a list of `Event`s; the calls it makes into the USB core and the
  allocator are recorded as a list of `Op`s;
* the results of fallible kernel calls are inputs of the embedding (`Env`).
-/

namespace XboxDriver

/-! ## Input events -/

/-- Event categories of the input layer that the driver uses. -/
inductive EvType
  | EV_SYN
  | EV_KEY
  | EV_ABS
  deriving DecidableEq, Repr

/-- Event codes that the driver uses, by their kernel names. -/
inductive Code
  | SYN_REPORT
  | BTN_A
  | BTN_B
  | BTN_X
  | BTN_Y
  | BTN_TL
  | BTN_TR
  | BTN_TL2
  | BTN_TR2
  | BTN_SELECT
  | BTN_START
  | BTN_MODE
  | BTN_THUMBL
  | BTN_THUMBR
  | BTN_DPAD_UP
  | BTN_DPAD_DOWN
  | BTN_DPAD_LEFT
  | BTN_DPAD_RIGHT
  | ABS_X
  | ABS_Y
  | ABS_Z
  | ABS_RX
  | ABS_RY
  | ABS_RZ
  deriving DecidableEq, Repr

/-- One call of `input_event(dev, type, code, value)`. -/
structure Event where
  type : EvType
  code : Code
  value : Int
  deriving DecidableEq, Repr

/-- The kernel inline `input_report_key(dev, code, value)`:
`input_event(dev, EV_KEY, code, !!value)`. -/
def input_report_key (code : Code) (value : Int) : Event :=
  ⟨EvType.EV_KEY, code, if value ≠ 0 then 1 else 0⟩

/-- The kernel inline `input_report_abs(dev, code, value)`:
`input_event(dev, EV_ABS, code, value)`. -/
def input_report_abs (code : Code) (value : Int) : Event :=
  ⟨EvType.EV_ABS, code, value⟩

/-- The kernel inline `input_sync(dev)`:
`input_event(dev, EV_SYN, SYN_REPORT, 0)`. -/
def input_sync : Event :=
  ⟨EvType.EV_SYN, Code.SYN_REPORT, 0⟩

/-! ## Machine integers -/

/-- The byte `data[i]` of the receive buffer. -/
def u8_at (data : List Nat) (i : Nat) : Nat :=
  data.getD i 0 % 256

/-- The conversion `(s16)x` of a non-negative `int`: reduction modulo `2^16`
into `-32768..32767`. -/
def s16 (x : Nat) : Int :=
  if x % 65536 < 32768 then ((x % 65536 : Nat) : Int) else ((x % 65536 : Nat) : Int) - 65536

/-- The conversion `(u16)x` of a non-negative `int`. -/
def u16 (x : Nat) : Nat :=
  x % 65536

/-! ## The report decoder -/

/-- The function `xbox_parse_input(xbox_dev, data, len)`: the events reported to
the input device, in program order. The file-scope variables `left_stick_x`,
..., `right_trigger` are assigned and then read within the same call; they are
the `let` bindings here. -/
def xbox_parse_input (data : List Nat) (len : Int) : List Event :=
  if len < 14 then
    if len = 6 then
      [ input_report_key Code.BTN_MODE ((u8_at data 4 &&& 0x01 : Nat) : Int),
        input_sync ]
    else
      []
  else
    let left_stick_x : Int := s16 (u8_at data 10 ||| (u8_at data 11 <<< 8))
    let left_stick_y : Int := s16 (u8_at data 12 ||| (u8_at data 13 <<< 8))
    let right_stick_x : Int := s16 (u8_at data 14 ||| (u8_at data 15 <<< 8))
    let right_stick_y : Int := s16 (u8_at data 16 ||| (u8_at data 17 <<< 8))
    let left_trigger : Nat := u16 (u8_at data 6 ||| (u8_at data 7 <<< 8))
    let right_trigger : Nat := u16 (u8_at data 8 ||| (u8_at data 9 <<< 8))
    [ input_report_key Code.BTN_A ((u8_at data 4 &&& 0x10 : Nat) : Int),
      input_report_key Code.BTN_B ((u8_at data 4 &&& 0x20 : Nat) : Int),
      input_report_key Code.BTN_Y ((u8_at data 4 &&& 0x40 : Nat) : Int),
      input_report_key Code.BTN_X ((u8_at data 4 &&& 0x80 : Nat) : Int),
      input_report_key Code.BTN_SELECT ((u8_at data 4 &&& 0x08 : Nat) : Int),
      input_report_key Code.BTN_START ((u8_at data 4 &&& 0x04 : Nat) : Int),
      input_report_key Code.BTN_DPAD_UP ((u8_at data 5 &&& 0x01 : Nat) : Int),
      input_report_key Code.BTN_DPAD_DOWN ((u8_at data 5 &&& 0x02 : Nat) : Int),
      input_report_key Code.BTN_DPAD_LEFT ((u8_at data 5 &&& 0x04 : Nat) : Int),
      input_report_key Code.BTN_DPAD_RIGHT ((u8_at data 5 &&& 0x08 : Nat) : Int),
      input_report_key Code.BTN_TL ((u8_at data 5 &&& 0x10 : Nat) : Int),
      input_report_key Code.BTN_TR ((u8_at data 5 &&& 0x20 : Nat) : Int),
      input_report_key Code.BTN_THUMBL ((u8_at data 5 &&& 0x40 : Nat) : Int),
      input_report_key Code.BTN_THUMBR ((u8_at data 5 &&& 0x80 : Nat) : Int),
      input_report_abs Code.ABS_X left_stick_x,
      input_report_abs Code.ABS_Y (-left_stick_y),
      input_report_abs Code.ABS_RX right_stick_x,
      input_report_abs Code.ABS_RY (-right_stick_y),
      input_report_abs Code.ABS_Z (left_trigger : Int),
      input_report_abs Code.ABS_RZ (right_trigger : Int),
      input_report_key Code.BTN_TL2 (left_trigger : Int),
      input_report_key Code.BTN_TR2 (right_trigger : Int),
      input_sync ]

/-! ## Observations on an event batch -/

/-- The values reported for `(type, code)` in a batch, in order. A batch that
reports the pair exactly once yields a one-element list. -/
def reported (evs : List Event) (t : EvType) (c : Code) : List Int :=
  (evs.filter (fun e => decide (e.type = t ∧ e.code = c))).map (fun e => e.value)

/-- The value `input_report_key` passes on for a button whose mask bit is bit
`i` of byte `b`: 1 (pressed) when the bit is set, 0 otherwise. -/
def keyOfBit (b i : Nat) : Int :=
  if b.testBit i then 1 else 0

/-- The fourteen buttons decoded from the two bitmask bytes, in the order the
decoder reports them. -/
def maskButtons : List Code :=
  [ Code.BTN_A, Code.BTN_B, Code.BTN_Y, Code.BTN_X, Code.BTN_SELECT, Code.BTN_START,
    Code.BTN_DPAD_UP, Code.BTN_DPAD_DOWN, Code.BTN_DPAD_LEFT, Code.BTN_DPAD_RIGHT,
    Code.BTN_TL, Code.BTN_TR, Code.BTN_THUMBL, Code.BTN_THUMBR ]

/-- The buttons of `cs` that a batch reports as pressed (exactly one key event,
of value 1). -/
def pressedAmong (evs : List Event) (cs : List Code) : List Code :=
  cs.filter (fun c => decide (reported evs EvType.EV_KEY c = [1]))

/-- The unsigned 16-bit value of a two-byte little-endian field, as the report
format describes it: low byte first. -/
def le_u16 (lo hi : Nat) : Nat :=
  lo + 256 * hi

/-- The signed (two's complement) 16-bit value of a two-byte little-endian
field, as the report format describes it. -/
def le_s16 (lo hi : Nat) : Int :=
  if le_u16 lo hi < 32768 then (le_u16 lo hi : Int) else (le_u16 lo hi : Int) - 65536

/-- The two bytes, low byte first, that encode `v` as a two's complement
little-endian 16-bit integer. -/
def s16_bytes (v : Int) : Nat × Nat :=
  ((v % 256).toNat, (v / 256 % 256).toNat)

/-! ## Kernel calls -/

/-- The error numbers the driver returns itself. -/
def ENOMEM : Int := 12

/-- The error number `xbox_probe` declines an interface with. -/
def ENODEV : Int := 19

/-- One call made by the driver into the kernel (USB core, input core,
allocator, log), with the result the kernel gave where the call can fail; and
the call of the driver's own decoder from the completion callback, with the
events it reported. -/
inductive Op
  | pr_info
  | pr_err (ret : Int)
  | kzalloc (ok : Bool)
  | usb_get_dev
  | usb_set_intfdata
  | input_allocate_device (ok : Bool)
  | set_evbit (t : EvType)
  | set_keybit (c : Code)
  | input_set_abs_params (c : Code) (min max fuzz flat : Int)
  | input_register_device (ret : Int)
  | usb_interrupt_msg (endpoint : Nat) (payload : List Nat) (timeout : Nat) (ret : Int)
  | kmalloc (size : Nat) (ok : Bool)
  | usb_alloc_urb (ok : Bool)
  | usb_fill_int_urb (interval : Nat)
  | usb_submit_urb (ret : Int)
  | usb_free_urb
  | kfree_irq_in_buffer
  | input_unregister_device
  | usb_put_dev
  | kfree_xbox_dev
  | xbox_parse_input (events : List Event)
  deriving DecidableEq, Repr

/-- The results of the fallible kernel calls during one `xbox_probe`, and the
endpoint's maximum packet size. -/
structure Env where
  kzalloc_ok : Bool
  input_allocate_device_ok : Bool
  input_register_device_ret : Int
  usb_interrupt_msg_ret : Int
  maxp : Nat
  kmalloc_ok : Bool
  usb_alloc_urb_ok : Bool
  usb_submit_urb_ret : Int
  deriving DecidableEq, Repr

/-! ## The completion callback -/

/-- The fields of the receive request that the completion callback reads. -/
structure Urb where
  transfer_buffer : List Nat
  actual_length : Nat
  deriving DecidableEq, Repr

/-- Conversion of the `u32` field `urb->actual_length` to the `int` parameter
`len`. -/
def int_of_u32 (n : Nat) : Int :=
  if n % 4294967296 < 2147483648 then ((n % 4294967296 : Nat) : Int)
  else ((n % 4294967296 : Nat) : Int) - 4294967296

/-- The callback `xbox_irq_in(urb)`: one decode of the completed payload, then
one resubmission of the same request; `submit_ret` is what `usb_submit_urb`
returns. -/
def xbox_irq_in (urb : Urb) (submit_ret : Int) : List Op :=
  [ Op.xbox_parse_input (xbox_parse_input urb.transfer_buffer (int_of_u32 urb.actual_length)),
    Op.usb_submit_urb submit_ret ] ++
  (if submit_ret ≠ 0 then [Op.pr_err submit_ret] else [])

/-- What is observed of the report channel: how many requests are in flight, and
how many decodes and submissions the callback has made. -/
structure Channel where
  in_flight : Nat
  decodes : Nat
  submits : Nat
  deriving DecidableEq, Repr

/-- The channel right after `xbox_probe` has submitted the request for the
first time. -/
def Channel.started : Channel :=
  ⟨1, 0, 0⟩

/-- Effect of one call of the callback on the channel. A submission that the
USB core accepts (returns 0) puts the request in flight. -/
def Channel.apply (c : Channel) : Op → Channel
  | Op.xbox_parse_input _ => { c with decodes := c.decodes + 1 }
  | Op.usb_submit_urb ret =>
      { c with submits := c.submits + 1,
               in_flight := if ret = 0 then c.in_flight + 1 else c.in_flight }
  | _ => c

/-- One completion: the USB core retires the request in flight and runs the
callback on it. -/
def Channel.complete (c : Channel) (urb : Urb) (submit_ret : Int) : Channel :=
  (xbox_irq_in urb submit_ret).foldl Channel.apply { c with in_flight := c.in_flight - 1 }

/-- A sequence of completions, each with the payload it delivers and the result
of the resubmission the callback makes. -/
def Channel.run (c : Channel) (cs : List (Urb × Int)) : Channel :=
  cs.foldl (fun c x => Channel.complete c x.1 x.2) c

/-- The calls the callback makes over a sequence of completions, in order. -/
def irq_trace (cs : List (Urb × Int)) : List Op :=
  cs.flatMap (fun x => xbox_irq_in x.1 x.2)

/-! ## Attach -/

/-- The payload `xbox_init_packets`, of length `xbox_init_length`. -/
def xbox_init_packets : List Nat :=
  [0x05, 0x20, 0x00, 0x01, 0x00]

/-- The function `xbox_initialize_controller`: the return value and the calls
made, given the result of `usb_interrupt_msg`. -/
def xbox_initialize_controller (ret : Int) : Int × List Op :=
  if ret < 0 then
    (ret, [Op.usb_interrupt_msg 0x02 xbox_init_packets 100 ret, Op.pr_err ret])
  else
    (0, [Op.usb_interrupt_msg 0x02 xbox_init_packets 100 ret, Op.pr_info])

/-- The capability declarations `xbox_probe` makes on the allocated input
device, before registering it. -/
def xbox_input_setup : List Op :=
  [ Op.set_evbit EvType.EV_KEY,
    Op.set_evbit EvType.EV_ABS,
    Op.set_keybit Code.BTN_A,
    Op.set_keybit Code.BTN_B,
    Op.set_keybit Code.BTN_Y,
    Op.set_keybit Code.BTN_X,
    Op.set_keybit Code.BTN_TL,
    Op.set_keybit Code.BTN_TR,
    Op.set_keybit Code.BTN_SELECT,
    Op.set_keybit Code.BTN_START,
    Op.set_keybit Code.BTN_THUMBL,
    Op.set_keybit Code.BTN_THUMBR,
    Op.set_keybit Code.BTN_DPAD_UP,
    Op.set_keybit Code.BTN_DPAD_DOWN,
    Op.set_keybit Code.BTN_DPAD_LEFT,
    Op.set_keybit Code.BTN_DPAD_RIGHT,
    Op.set_keybit Code.BTN_MODE,
    Op.input_set_abs_params Code.ABS_X (-32768) 32767 0 0,
    Op.input_set_abs_params Code.ABS_Y (-32768) 32767 0 0,
    Op.input_set_abs_params Code.ABS_RX (-32768) 32767 0 0,
    Op.input_set_abs_params Code.ABS_RY (-32768) 32767 0 0,
    Op.input_set_abs_params Code.ABS_Z 0 1023 0 0,
    Op.input_set_abs_params Code.ABS_RZ 0 1023 0 0,
    Op.set_keybit Code.BTN_TL2,
    Op.set_keybit Code.BTN_TR2 ]

/-- The unwind label `fail:`. -/
def unwind_fail : List Op :=
  [Op.usb_put_dev, Op.kfree_xbox_dev]

/-- The unwind label `fail_input:`, falling through to `fail:`. -/
def unwind_fail_input : List Op :=
  Op.input_unregister_device :: unwind_fail

/-- The unwind label `fail_buffer:`, falling through to `fail_input:`. -/
def unwind_fail_buffer : List Op :=
  Op.kfree_irq_in_buffer :: unwind_fail_input

/-- The unwind label `fail_urb:`, falling through to `fail_buffer:`. -/
def unwind_fail_urb : List Op :=
  Op.usb_free_urb :: unwind_fail_buffer

/-- The function `xbox_probe(interface, id)`: the return value and the calls
made, in program order, for an interface whose `bInterfaceNumber` is `ifnum`
under the kernel results `env`. -/
def xbox_probe (ifnum : Nat) (env : Env) : Int × List Op :=
  if ifnum ≠ 0 then
    (-ENODEV, [])
  else
    let t0 := [Op.pr_info, Op.kzalloc env.kzalloc_ok]
    if !env.kzalloc_ok then
      (-ENOMEM, t0)
    else
      let t1 := t0 ++ [Op.usb_get_dev, Op.usb_set_intfdata,
        Op.input_allocate_device env.input_allocate_device_ok]
      if !env.input_allocate_device_ok then
        (-ENOMEM, t1 ++ unwind_fail)
      else
        let t2 := t1 ++ xbox_input_setup ++
          [Op.input_register_device env.input_register_device_ret]
        if env.input_register_device_ret ≠ 0 then
          (env.input_register_device_ret, t2 ++ unwind_fail_input)
        else
          let init := xbox_initialize_controller env.usb_interrupt_msg_ret
          let t3 := t2 ++ init.2
          if init.1 ≠ 0 then
            (init.1, t3 ++ unwind_fail_input)
          else
            let t4 := t3 ++ [Op.kmalloc env.maxp env.kmalloc_ok]
            if !env.kmalloc_ok then
              (-ENOMEM, t4 ++ unwind_fail_input)
            else
              let t5 := t4 ++ [Op.usb_alloc_urb env.usb_alloc_urb_ok]
              if !env.usb_alloc_urb_ok then
                (-ENOMEM, t5 ++ unwind_fail_buffer)
              else
                let t6 := t5 ++ [Op.usb_fill_int_urb 16,
                  Op.usb_submit_urb env.usb_submit_urb_ret]
                if env.usb_submit_urb_ret ≠ 0 then
                  (env.usb_submit_urb_ret,
                    t6 ++ [Op.pr_err env.usb_submit_urb_ret] ++ unwind_fail_urb)
                else
                  (0, t6 ++ [Op.pr_info])

/-- Kernel results under which every step of `xbox_probe` succeeds, for an
endpoint with 64-byte packets. -/
def Env.allOk : Env :=
  ⟨true, true, 0, 0, 64, true, true, 0⟩

/-- How often a call occurs in a trace. -/
def occurrences (t : List Op) (op : Op) : Nat :=
  t.count op

/-! ## Decoder: properties -/

/-- The test `value & 2^i` that the decoder hands to `input_report_key` is
nonzero exactly when bit `i` is set. -/
theorem report_key_mask (c : Code) (b i : Nat) :
    input_report_key c ((b &&& 2 ^ i : Nat) : Int) = ⟨EvType.EV_KEY, c, keyOfBit b i⟩ := by
  unfold input_report_key keyOfBit
  rw [Nat.and_two_pow]
  cases h : b.testBit i <;> simp

/-- C1: a report whose length is below 6, or strictly between 6 and 14, makes
the decoder emit nothing: no key event, no axis event, no sync. -/
theorem parse_short_emits_nothing (data : List Nat) (len : Int)
    (h : len < 6 ∨ (6 < len ∧ len < 14)) :
    xbox_parse_input data len = [] := by
  unfold xbox_parse_input
  have h14 : len < 14 := by omega
  have h6 : len ≠ 6 := by omega
  simp [h14, h6]

/-- Witness for C1: a 3-byte report. -/
theorem parse_short_emits_nothing_witness :
    ((3 : Int) < 6 ∨ ((6 : Int) < 3 ∧ (3 : Int) < 14)) ∧
      xbox_parse_input [1, 2, 3] 3 = [] :=
  ⟨by decide, parse_short_emits_nothing [1, 2, 3] 3 (by decide)⟩

/-- C2: a report of length exactly 6 makes the decoder emit exactly two events:
one key event for the Mode/Home button, whose value is bit 0 of the byte at
offset 4, and then one sync. -/
theorem parse_mode_only (data : List Nat) :
    xbox_parse_input data 6 =
      [ ⟨EvType.EV_KEY, Code.BTN_MODE, if u8_at data 4 % 2 = 1 then 1 else 0⟩,
        ⟨EvType.EV_SYN, Code.SYN_REPORT, 0⟩ ] := by
  unfold xbox_parse_input input_report_key input_sync
  have h : u8_at data 4 % 2 = 0 ∨ u8_at data 4 % 2 = 1 := by omega
  rcases h with h | h <;> simp [Nat.and_one_is_mod, h]

/-- A two-byte field assembled as `lo | (hi << 8)` is `lo + 256 * hi`. -/
theorem lor_shl8 (lo hi : Nat) (h : lo < 256) : lo ||| (hi <<< 8) = le_u16 lo hi := by
  have key := Nat.mul_add_lt_is_or (i := 8) (b := lo) (by simpa using h) hi
  unfold le_u16
  rw [Nat.shiftLeft_eq, Nat.lor_comm, Nat.mul_comm hi, ← key]
  omega

theorem u8_at_lt (data : List Nat) (i : Nat) : u8_at data i < 256 := by
  unfold u8_at
  omega

/-- The `s16` the decoder computes for a stick field is the little-endian
signed value of its two bytes. -/
theorem s16_field (data : List Nat) (i j : Nat) :
    s16 (u8_at data i ||| (u8_at data j <<< 8)) = le_s16 (u8_at data i) (u8_at data j) := by
  rw [lor_shl8 _ _ (u8_at_lt data i)]
  have hi := u8_at_lt data i
  have hj := u8_at_lt data j
  unfold s16 le_s16
  have hlt : le_u16 (u8_at data i) (u8_at data j) < 65536 := by
    unfold le_u16
    omega
  rw [Nat.mod_eq_of_lt hlt]

/-- The `u16` the decoder computes for a trigger field is the little-endian
unsigned value of its two bytes. -/
theorem u16_field (data : List Nat) (i j : Nat) :
    u16 (u8_at data i ||| (u8_at data j <<< 8)) = le_u16 (u8_at data i) (u8_at data j) := by
  rw [lor_shl8 _ _ (u8_at_lt data i)]
  have hi := u8_at_lt data i
  have hj := u8_at_lt data j
  unfold u16
  apply Nat.mod_eq_of_lt
  unfold le_u16
  omega

/-- The batch of a full report, with every value written as a function of the
report bytes. -/
theorem parse_full_eq (data : List Nat) (len : Int) (h : 14 ≤ len) :
    xbox_parse_input data len =
      [ ⟨EvType.EV_KEY, Code.BTN_A, keyOfBit (u8_at data 4) 4⟩,
        ⟨EvType.EV_KEY, Code.BTN_B, keyOfBit (u8_at data 4) 5⟩,
        ⟨EvType.EV_KEY, Code.BTN_Y, keyOfBit (u8_at data 4) 6⟩,
        ⟨EvType.EV_KEY, Code.BTN_X, keyOfBit (u8_at data 4) 7⟩,
        ⟨EvType.EV_KEY, Code.BTN_SELECT, keyOfBit (u8_at data 4) 3⟩,
        ⟨EvType.EV_KEY, Code.BTN_START, keyOfBit (u8_at data 4) 2⟩,
        ⟨EvType.EV_KEY, Code.BTN_DPAD_UP, keyOfBit (u8_at data 5) 0⟩,
        ⟨EvType.EV_KEY, Code.BTN_DPAD_DOWN, keyOfBit (u8_at data 5) 1⟩,
        ⟨EvType.EV_KEY, Code.BTN_DPAD_LEFT, keyOfBit (u8_at data 5) 2⟩,
        ⟨EvType.EV_KEY, Code.BTN_DPAD_RIGHT, keyOfBit (u8_at data 5) 3⟩,
        ⟨EvType.EV_KEY, Code.BTN_TL, keyOfBit (u8_at data 5) 4⟩,
        ⟨EvType.EV_KEY, Code.BTN_TR, keyOfBit (u8_at data 5) 5⟩,
        ⟨EvType.EV_KEY, Code.BTN_THUMBL, keyOfBit (u8_at data 5) 6⟩,
        ⟨EvType.EV_KEY, Code.BTN_THUMBR, keyOfBit (u8_at data 5) 7⟩,
        ⟨EvType.EV_ABS, Code.ABS_X, le_s16 (u8_at data 10) (u8_at data 11)⟩,
        ⟨EvType.EV_ABS, Code.ABS_Y, -le_s16 (u8_at data 12) (u8_at data 13)⟩,
        ⟨EvType.EV_ABS, Code.ABS_RX, le_s16 (u8_at data 14) (u8_at data 15)⟩,
        ⟨EvType.EV_ABS, Code.ABS_RY, -le_s16 (u8_at data 16) (u8_at data 17)⟩,
        ⟨EvType.EV_ABS, Code.ABS_Z, (le_u16 (u8_at data 6) (u8_at data 7) : Int)⟩,
        ⟨EvType.EV_ABS, Code.ABS_RZ, (le_u16 (u8_at data 8) (u8_at data 9) : Int)⟩,
        ⟨EvType.EV_KEY, Code.BTN_TL2,
          if le_u16 (u8_at data 6) (u8_at data 7) ≠ 0 then 1 else 0⟩,
        ⟨EvType.EV_KEY, Code.BTN_TR2,
          if le_u16 (u8_at data 8) (u8_at data 9) ≠ 0 then 1 else 0⟩,
        ⟨EvType.EV_SYN, Code.SYN_REPORT, 0⟩ ] := by
  have h14 : ¬ len < 14 := by omega
  have m0 : ∀ (c : Code) (b : Nat), input_report_key c ((b &&& 1 : Nat) : Int) =
      ⟨EvType.EV_KEY, c, keyOfBit b 0⟩ := fun c b => report_key_mask c b 0
  have m1 : ∀ (c : Code) (b : Nat), input_report_key c ((b &&& 2 : Nat) : Int) =
      ⟨EvType.EV_KEY, c, keyOfBit b 1⟩ := fun c b => report_key_mask c b 1
  have m2 : ∀ (c : Code) (b : Nat), input_report_key c ((b &&& 4 : Nat) : Int) =
      ⟨EvType.EV_KEY, c, keyOfBit b 2⟩ := fun c b => report_key_mask c b 2
  have m3 : ∀ (c : Code) (b : Nat), input_report_key c ((b &&& 8 : Nat) : Int) =
      ⟨EvType.EV_KEY, c, keyOfBit b 3⟩ := fun c b => report_key_mask c b 3
  have m4 : ∀ (c : Code) (b : Nat), input_report_key c ((b &&& 16 : Nat) : Int) =
      ⟨EvType.EV_KEY, c, keyOfBit b 4⟩ := fun c b => report_key_mask c b 4
  have m5 : ∀ (c : Code) (b : Nat), input_report_key c ((b &&& 32 : Nat) : Int) =
      ⟨EvType.EV_KEY, c, keyOfBit b 5⟩ := fun c b => report_key_mask c b 5
  have m6 : ∀ (c : Code) (b : Nat), input_report_key c ((b &&& 64 : Nat) : Int) =
      ⟨EvType.EV_KEY, c, keyOfBit b 6⟩ := fun c b => report_key_mask c b 6
  have m7 : ∀ (c : Code) (b : Nat), input_report_key c ((b &&& 128 : Nat) : Int) =
      ⟨EvType.EV_KEY, c, keyOfBit b 7⟩ := fun c b => report_key_mask c b 7
  unfold xbox_parse_input
  rw [if_neg h14]
  simp only [s16_field, u16_field, m0, m1, m2, m3, m4, m5, m6, m7]
  simp [input_report_abs, input_report_key, input_sync]

/-- C3: a full report (length at least 14) makes the decoder emit exactly one
key event for each of A, B, Y, X, Select, Start, whose value is bit 4, 5, 6, 7,
3, 2 of the byte at offset 4, and exactly one for each of D-pad up, down, left,
right, bumper left, right, thumbstick-click left, right, whose value is bit 0
to 7 of the byte at offset 5; with 0x90 at offset 4 and 0x03 at offset 5 the
buttons pressed among these fourteen are exactly A, X, D-pad up, D-pad down. -/
theorem parse_full_buttons (data : List Nat) (len : Int) (h : 14 ≤ len) :
    reported (xbox_parse_input data len) EvType.EV_KEY Code.BTN_A = [keyOfBit (u8_at data 4) 4] ∧
    reported (xbox_parse_input data len) EvType.EV_KEY Code.BTN_B = [keyOfBit (u8_at data 4) 5] ∧
    reported (xbox_parse_input data len) EvType.EV_KEY Code.BTN_Y = [keyOfBit (u8_at data 4) 6] ∧
    reported (xbox_parse_input data len) EvType.EV_KEY Code.BTN_X = [keyOfBit (u8_at data 4) 7] ∧
    reported (xbox_parse_input data len) EvType.EV_KEY Code.BTN_SELECT = [keyOfBit (u8_at data 4) 3] ∧
    reported (xbox_parse_input data len) EvType.EV_KEY Code.BTN_START = [keyOfBit (u8_at data 4) 2] ∧
    reported (xbox_parse_input data len) EvType.EV_KEY Code.BTN_DPAD_UP = [keyOfBit (u8_at data 5) 0] ∧
    reported (xbox_parse_input data len) EvType.EV_KEY Code.BTN_DPAD_DOWN = [keyOfBit (u8_at data 5) 1] ∧
    reported (xbox_parse_input data len) EvType.EV_KEY Code.BTN_DPAD_LEFT = [keyOfBit (u8_at data 5) 2] ∧
    reported (xbox_parse_input data len) EvType.EV_KEY Code.BTN_DPAD_RIGHT = [keyOfBit (u8_at data 5) 3] ∧
    reported (xbox_parse_input data len) EvType.EV_KEY Code.BTN_TL = [keyOfBit (u8_at data 5) 4] ∧
    reported (xbox_parse_input data len) EvType.EV_KEY Code.BTN_TR = [keyOfBit (u8_at data 5) 5] ∧
    reported (xbox_parse_input data len) EvType.EV_KEY Code.BTN_THUMBL = [keyOfBit (u8_at data 5) 6] ∧
    reported (xbox_parse_input data len) EvType.EV_KEY Code.BTN_THUMBR = [keyOfBit (u8_at data 5) 7] ∧
    (u8_at data 4 = 0x90 → u8_at data 5 = 0x03 →
      pressedAmong (xbox_parse_input data len) maskButtons =
        [Code.BTN_A, Code.BTN_X, Code.BTN_DPAD_UP, Code.BTN_DPAD_DOWN]) := by
  rw [parse_full_eq data len h]
  refine ⟨rfl, rfl, rfl, rfl, rfl, rfl, rfl, rfl, rfl, rfl, rfl, rfl, rfl, rfl, ?_⟩
  intro h4 h5
  rw [h4, h5]
  rfl

/-- Witness for C3: an 18-byte report with 0x90 at offset 4 and 0x03 at
offset 5. -/
theorem parse_full_buttons_witness :
    (14 : Int) ≤ 18 ∧
      pressedAmong
          (xbox_parse_input [0, 0, 0, 0, 0x90, 0x03, 0, 0, 0, 0, 0, 0, 0, 0, 0, 0, 0, 0] 18)
          maskButtons =
        [Code.BTN_A, Code.BTN_X, Code.BTN_DPAD_UP, Code.BTN_DPAD_DOWN] :=
  ⟨by decide,
    (parse_full_buttons [0, 0, 0, 0, 0x90, 0x03, 0, 0, 0, 0, 0, 0, 0, 0, 0, 0, 0, 0] 18
      (by decide)).2.2.2.2.2.2.2.2.2.2.2.2.2.2 rfl rfl⟩

/-- Decoding the two's complement little-endian bytes of `v` gives `v` back. -/
theorem le_s16_bytes (v : Int) (hlo : -32768 ≤ v) (hhi : v ≤ 32767) :
    le_s16 (s16_bytes v).1 (s16_bytes v).2 = v := by
  unfold le_s16 le_u16 s16_bytes
  simp only
  split <;> omega

/-- C4: in a full report each stick axis is the little-endian signed 16-bit
value `v` of its two-byte field; ABS_X and ABS_RX are emitted, once each, with
value `v`, and ABS_Y and ABS_RY with value `-v` computed in the integers: for
every `v` in -32768..32767 whose encoding is in the field, the emitted Y value
is `-v`, so that -32768 (bytes 00 80) is emitted as 32768; with left-stick
bytes FF 7F 01 80 the emitted left X is 32767 and the emitted left Y is 32767. -/
theorem parse_full_sticks (data : List Nat) (len : Int) (h : 14 ≤ len) :
    (reported (xbox_parse_input data len) EvType.EV_ABS Code.ABS_X =
        [le_s16 (u8_at data 10) (u8_at data 11)] ∧
      reported (xbox_parse_input data len) EvType.EV_ABS Code.ABS_Y =
        [-le_s16 (u8_at data 12) (u8_at data 13)] ∧
      reported (xbox_parse_input data len) EvType.EV_ABS Code.ABS_RX =
        [le_s16 (u8_at data 14) (u8_at data 15)] ∧
      reported (xbox_parse_input data len) EvType.EV_ABS Code.ABS_RY =
        [-le_s16 (u8_at data 16) (u8_at data 17)]) ∧
    (∀ v : Int, -32768 ≤ v → v ≤ 32767 →
      ((u8_at data 10, u8_at data 11) = s16_bytes v →
        reported (xbox_parse_input data len) EvType.EV_ABS Code.ABS_X = [v]) ∧
      ((u8_at data 12, u8_at data 13) = s16_bytes v →
        reported (xbox_parse_input data len) EvType.EV_ABS Code.ABS_Y = [-v]) ∧
      ((u8_at data 14, u8_at data 15) = s16_bytes v →
        reported (xbox_parse_input data len) EvType.EV_ABS Code.ABS_RX = [v]) ∧
      ((u8_at data 16, u8_at data 17) = s16_bytes v →
        reported (xbox_parse_input data len) EvType.EV_ABS Code.ABS_RY = [-v])) ∧
    (u8_at data 12 = 0x00 → u8_at data 13 = 0x80 →
      reported (xbox_parse_input data len) EvType.EV_ABS Code.ABS_Y = [32768]) ∧
    (u8_at data 16 = 0x00 → u8_at data 17 = 0x80 →
      reported (xbox_parse_input data len) EvType.EV_ABS Code.ABS_RY = [32768]) ∧
    (u8_at data 10 = 0xFF → u8_at data 11 = 0x7F → u8_at data 12 = 0x01 →
      u8_at data 13 = 0x80 →
      reported (xbox_parse_input data len) EvType.EV_ABS Code.ABS_X = [32767] ∧
      reported (xbox_parse_input data len) EvType.EV_ABS Code.ABS_Y = [32767]) := by
  rw [parse_full_eq data len h]
  refine ⟨⟨rfl, rfl, rfl, rfl⟩, ?_, ?_, ?_, ?_⟩
  · intro v hlo hhi
    have key := le_s16_bytes v hlo hhi
    refine ⟨?_, ?_, ?_, ?_⟩ <;>
    · intro hb
      have h1 := congrArg Prod.fst hb
      have h2 := congrArg Prod.snd hb
      simp only at h1 h2
      simp only [reported, List.filter, List.map, decide_True, decide_False, true_and, and_true,
        and_self, and_false, false_and, reduceCtorEq, h1, h2, key]
  · intro h1 h2
    simp only [reported, List.filter, List.map, decide_True, decide_False, true_and, and_true,
      and_self, and_false, false_and, reduceCtorEq, h1, h2]
    rfl
  · intro h1 h2
    simp only [reported, List.filter, List.map, decide_True, decide_False, true_and, and_true,
      and_self, and_false, false_and, reduceCtorEq, h1, h2]
    rfl
  · intro h1 h2 h3 h4
    simp only [reported, List.filter, List.map, decide_True, decide_False, true_and, and_true,
      and_self, and_false, false_and, reduceCtorEq, h1, h2, h3, h4]
    exact ⟨rfl, rfl⟩

/-- Witness for C4: an 18-byte report whose left stick field is FF 7F 01 80. -/
theorem parse_full_sticks_witness :
    (14 : Int) ≤ 18 ∧
      reported
          (xbox_parse_input
            [0, 0, 0, 0, 0, 0, 0, 0, 0, 0, 0xFF, 0x7F, 0x01, 0x80, 0, 0, 0, 0] 18)
          EvType.EV_ABS Code.ABS_X = [32767] ∧
      reported
          (xbox_parse_input
            [0, 0, 0, 0, 0, 0, 0, 0, 0, 0, 0xFF, 0x7F, 0x01, 0x80, 0, 0, 0, 0] 18)
          EvType.EV_ABS Code.ABS_Y = [32767] :=
  ⟨by decide,
    (parse_full_sticks [0, 0, 0, 0, 0, 0, 0, 0, 0, 0, 0xFF, 0x7F, 0x01, 0x80, 0, 0, 0, 0] 18
      (by decide)).2.2.2.2 rfl rfl rfl rfl⟩

/-- C5, as stated, fails: `xbox_probe` declares the range 0..1023 for ABS_Z and
ABS_RZ, and an 18-byte report whose trigger fields are FF FF makes the decoder
emit 65535 on both axes. -/
theorem trigger_axis_exceeds_declared_range :
    Op.input_set_abs_params Code.ABS_Z 0 1023 0 0 ∈ (xbox_probe 0 Env.allOk).2 ∧
    Op.input_set_abs_params Code.ABS_RZ 0 1023 0 0 ∈ (xbox_probe 0 Env.allOk).2 ∧
    (14 : Int) ≤ 18 ∧
    reported
        (xbox_parse_input
          [0, 0, 0, 0, 0, 0, 0xFF, 0xFF, 0xFF, 0xFF, 0, 0, 0, 0, 0, 0, 0, 0] 18)
        EvType.EV_ABS Code.ABS_Z = [65535] ∧
    reported
        (xbox_parse_input
          [0, 0, 0, 0, 0, 0, 0xFF, 0xFF, 0xFF, 0xFF, 0, 0, 0, 0, 0, 0, 0, 0] 18)
        EvType.EV_ABS Code.ABS_RZ = [65535] ∧
    ¬ ((65535 : Int) ≤ 1023) := by
  decide

/-- C5, amended: in a full report the value emitted on ABS_Z (ABS_RZ) is the
little-endian unsigned 16-bit value of the field at offsets 6, 7 (8, 9), not
reduced any further; it lies in 0..65535, and it lies in the declared range
0..1023 exactly when the high byte of the field is at most 3. -/
theorem parse_full_trigger_axis_range (data : List Nat) (len : Int) (h : 14 ≤ len) :
    reported (xbox_parse_input data len) EvType.EV_ABS Code.ABS_Z =
      [(le_u16 (u8_at data 6) (u8_at data 7) : Int)] ∧
    reported (xbox_parse_input data len) EvType.EV_ABS Code.ABS_RZ =
      [(le_u16 (u8_at data 8) (u8_at data 9) : Int)] ∧
    (∀ v ∈ reported (xbox_parse_input data len) EvType.EV_ABS Code.ABS_Z,
      0 ≤ v ∧ v ≤ 65535 ∧ (v ≤ 1023 ↔ u8_at data 7 ≤ 3)) ∧
    (∀ v ∈ reported (xbox_parse_input data len) EvType.EV_ABS Code.ABS_RZ,
      0 ≤ v ∧ v ≤ 65535 ∧ (v ≤ 1023 ↔ u8_at data 9 ≤ 3)) := by
  rw [parse_full_eq data len h]
  have h6 := u8_at_lt data 6
  have h7 := u8_at_lt data 7
  have h8 := u8_at_lt data 8
  have h9 := u8_at_lt data 9
  refine ⟨rfl, rfl, ?_, ?_⟩
  · intro v hv
    have hv' : v = (le_u16 (u8_at data 6) (u8_at data 7) : Int) := by
      simpa [reported] using hv
    subst hv'
    unfold le_u16
    omega
  · intro v hv
    have hv' : v = (le_u16 (u8_at data 8) (u8_at data 9) : Int) := by
      simpa [reported] using hv
    subst hv'
    unfold le_u16
    omega

/-- Witness for C5, amended: an 18-byte report whose left trigger field is
FF 03. -/
theorem parse_full_trigger_axis_range_witness :
    (14 : Int) ≤ 18 ∧
      reported
          (xbox_parse_input
            [0, 0, 0, 0, 0, 0, 0xFF, 0x03, 0, 0, 0, 0, 0, 0, 0, 0, 0, 0] 18)
          EvType.EV_ABS Code.ABS_Z = [((le_u16 0xFF 0x03 : Nat) : Int)] :=
  ⟨by decide,
    (parse_full_trigger_axis_range
      [0, 0, 0, 0, 0, 0, 0xFF, 0x03, 0, 0, 0, 0, 0, 0, 0, 0, 0, 0] 18 (by decide)).1⟩

/-- C6: in a full report each trigger magnitude is the little-endian unsigned
16-bit value of its field (offsets 6, 7 left; 8, 9 right) and is emitted twice,
once each: as the axis value on ABS_Z (ABS_RZ) and as the key BTN_TL2
(BTN_TR2), pressed exactly when the magnitude is nonzero, so magnitude 1 is
pressed; with trigger bytes FF 03 00 00 the left magnitude is 1023 with the
left key pressed and the right magnitude is 0 with the right key not pressed. -/
theorem parse_full_triggers (data : List Nat) (len : Int) (h : 14 ≤ len) :
    (reported (xbox_parse_input data len) EvType.EV_ABS Code.ABS_Z =
        [(le_u16 (u8_at data 6) (u8_at data 7) : Int)] ∧
      reported (xbox_parse_input data len) EvType.EV_KEY Code.BTN_TL2 =
        [if le_u16 (u8_at data 6) (u8_at data 7) ≠ 0 then 1 else 0] ∧
      reported (xbox_parse_input data len) EvType.EV_ABS Code.ABS_RZ =
        [(le_u16 (u8_at data 8) (u8_at data 9) : Int)] ∧
      reported (xbox_parse_input data len) EvType.EV_KEY Code.BTN_TR2 =
        [if le_u16 (u8_at data 8) (u8_at data 9) ≠ 0 then 1 else 0]) ∧
    (le_u16 (u8_at data 6) (u8_at data 7) = 1 →
      reported (xbox_parse_input data len) EvType.EV_KEY Code.BTN_TL2 = [1]) ∧
    (le_u16 (u8_at data 8) (u8_at data 9) = 1 →
      reported (xbox_parse_input data len) EvType.EV_KEY Code.BTN_TR2 = [1]) ∧
    (u8_at data 6 = 0xFF → u8_at data 7 = 0x03 → u8_at data 8 = 0x00 →
      u8_at data 9 = 0x00 →
      reported (xbox_parse_input data len) EvType.EV_ABS Code.ABS_Z = [1023] ∧
      reported (xbox_parse_input data len) EvType.EV_KEY Code.BTN_TL2 = [1] ∧
      reported (xbox_parse_input data len) EvType.EV_ABS Code.ABS_RZ = [0] ∧
      reported (xbox_parse_input data len) EvType.EV_KEY Code.BTN_TR2 = [0]) := by
  rw [parse_full_eq data len h]
  refine ⟨⟨rfl, rfl, rfl, rfl⟩, ?_, ?_, ?_⟩
  · intro h1
    simp only [reported, List.filter, List.map, decide_True, decide_False, true_and, and_true,
      and_self, and_false, false_and, reduceCtorEq, h1]
    rfl
  · intro h1
    simp only [reported, List.filter, List.map, decide_True, decide_False, true_and, and_true,
      and_self, and_false, false_and, reduceCtorEq, h1]
    rfl
  · intro h1 h2 h3 h4
    simp only [reported, List.filter, List.map, decide_True, decide_False, true_and, and_true,
      and_self, and_false, false_and, reduceCtorEq, h1, h2, h3, h4]
    exact ⟨rfl, rfl, rfl, rfl⟩

/-- Witness for C6: an 18-byte report whose trigger fields are FF 03 00 00. -/
theorem parse_full_triggers_witness :
    (14 : Int) ≤ 18 ∧
      reported
          (xbox_parse_input
            [0, 0, 0, 0, 0, 0, 0xFF, 0x03, 0x00, 0x00, 0, 0, 0, 0, 0, 0, 0, 0] 18)
          EvType.EV_ABS Code.ABS_Z = [1023] ∧
      reported
          (xbox_parse_input
            [0, 0, 0, 0, 0, 0, 0xFF, 0x03, 0x00, 0x00, 0, 0, 0, 0, 0, 0, 0, 0] 18)
          EvType.EV_KEY Code.BTN_TL2 = [1] ∧
      reported
          (xbox_parse_input
            [0, 0, 0, 0, 0, 0, 0xFF, 0x03, 0x00, 0x00, 0, 0, 0, 0, 0, 0, 0, 0] 18)
          EvType.EV_ABS Code.ABS_RZ = [0] ∧
      reported
          (xbox_parse_input
            [0, 0, 0, 0, 0, 0, 0xFF, 0x03, 0x00, 0x00, 0, 0, 0, 0, 0, 0, 0, 0] 18)
          EvType.EV_KEY Code.BTN_TR2 = [0] :=
  ⟨by decide,
    (parse_full_triggers
      [0, 0, 0, 0, 0, 0, 0xFF, 0x03, 0x00, 0x00, 0, 0, 0, 0, 0, 0, 0, 0] 18
      (by decide)).2.2.2 rfl rfl rfl rfl⟩

/-- C10, evaluated on the code: for a report of length 14 the decoder reads the
right-stick field at offsets 14 to 17, beyond the report. Two 64-byte receive
buffers that hold the same 14-byte report and differ only at offset 14 (or only
at offset 17) give different batches: the emitted ABS_RX (ABS_RY) is the stale
content of the buffer. -/
theorem parse_reads_past_report_length :
    (14 : Int) ≤ 14 ∧
    (List.replicate 14 0 ++ [1, 0, 0, 0] ++ List.replicate 46 0).take 14 =
      (List.replicate 64 0).take 14 ∧
    (List.replicate 14 0 ++ [0, 0, 0, 1] ++ List.replicate 46 0).take 14 =
      (List.replicate 64 0).take 14 ∧
    reported (xbox_parse_input (List.replicate 64 0) 14) EvType.EV_ABS Code.ABS_RX = [0] ∧
    reported (xbox_parse_input (List.replicate 14 0 ++ [1, 0, 0, 0] ++ List.replicate 46 0) 14)
      EvType.EV_ABS Code.ABS_RX = [1] ∧
    reported (xbox_parse_input (List.replicate 64 0) 14) EvType.EV_ABS Code.ABS_RY = [0] ∧
    reported (xbox_parse_input (List.replicate 14 0 ++ [0, 0, 0, 1] ++ List.replicate 46 0) 14)
      EvType.EV_ABS Code.ABS_RY = [-256] := by
  decide

/-- C7: for an interface whose number is not 0 (1 and 2 in particular),
`xbox_probe` returns -ENODEV, whatever the kernel would answer, and makes no
call at all: no session is allocated, no device reference is taken, the
interface data is not set, no input device and no request is created. -/
theorem probe_declines_other_interfaces (ifnum : Nat) (env : Env) (h : ifnum ≠ 0) :
    xbox_probe ifnum env = (-ENODEV, []) ∧
    (xbox_probe ifnum env).1 = -19 ∧
    (∀ op : Op, op ∉ (xbox_probe ifnum env).2) ∧
    xbox_probe 1 env = (-ENODEV, []) ∧
    xbox_probe 2 env = (-ENODEV, []) := by
  have h0 : xbox_probe ifnum env = (-ENODEV, []) := by
    unfold xbox_probe
    rw [if_pos h]
  refine ⟨h0, ?_, ?_, ?_, ?_⟩
  · rw [h0]
    rfl
  · intro op
    rw [h0]
    exact List.not_mem_nil op
  · unfold xbox_probe
    rw [if_pos (by decide)]
  · unfold xbox_probe
    rw [if_pos (by decide)]

/-- Witness for C7: interface 1, with a kernel that would let every step
succeed. -/
theorem probe_declines_other_interfaces_witness :
    (1 : Nat) ≠ 0 ∧ xbox_probe 1 Env.allOk = (-ENODEV, []) :=
  ⟨by decide, (probe_declines_other_interfaces 1 Env.allOk (by decide)).1⟩

/-- On interface 0, with every kernel call succeeding, `xbox_probe` returns 0
and has made each acquisition once and no release. -/
theorem probe_accepts_interface_zero :
    (xbox_probe 0 Env.allOk).1 = 0 ∧
    occurrences (xbox_probe 0 Env.allOk).2 (Op.kzalloc true) = 1 ∧
    occurrences (xbox_probe 0 Env.allOk).2 Op.usb_get_dev = 1 ∧
    occurrences (xbox_probe 0 Env.allOk).2 Op.usb_set_intfdata = 1 ∧
    occurrences (xbox_probe 0 Env.allOk).2 (Op.input_allocate_device true) = 1 ∧
    occurrences (xbox_probe 0 Env.allOk).2 (Op.input_register_device 0) = 1 ∧
    occurrences (xbox_probe 0 Env.allOk).2 (Op.kmalloc 64 true) = 1 ∧
    occurrences (xbox_probe 0 Env.allOk).2 (Op.usb_alloc_urb true) = 1 ∧
    occurrences (xbox_probe 0 Env.allOk).2 (Op.usb_submit_urb 0) = 1 ∧
    occurrences (xbox_probe 0 Env.allOk).2 Op.usb_free_urb = 0 ∧
    occurrences (xbox_probe 0 Env.allOk).2 Op.kfree_irq_in_buffer = 0 ∧
    occurrences (xbox_probe 0 Env.allOk).2 Op.input_unregister_device = 0 ∧
    occurrences (xbox_probe 0 Env.allOk).2 Op.usb_put_dev = 0 ∧
    occurrences (xbox_probe 0 Env.allOk).2 Op.kfree_xbox_dev = 0 := by
  decide

/-- C8, evaluated on the code: when `input_register_device` fails (here with
-ENOMEM) the unwind runs from `fail_input:` and calls
`input_unregister_device` on an input device that was allocated but never
registered; the trace holds no successful registration. The device reference
and the session are each released once. -/
theorem probe_unwind_after_failed_registration :
    xbox_probe 0 ⟨true, true, -12, 0, 64, true, true, 0⟩ =
      (-12,
        [Op.pr_info, Op.kzalloc true, Op.usb_get_dev, Op.usb_set_intfdata,
          Op.input_allocate_device true] ++ xbox_input_setup ++
        [Op.input_register_device (-12), Op.input_unregister_device, Op.usb_put_dev,
          Op.kfree_xbox_dev]) ∧
    occurrences (xbox_probe 0 ⟨true, true, -12, 0, 64, true, true, 0⟩).2
      (Op.input_register_device 0) = 0 ∧
    occurrences (xbox_probe 0 ⟨true, true, -12, 0, 64, true, true, 0⟩).2
      Op.input_unregister_device = 1 ∧
    occurrences (xbox_probe 0 ⟨true, true, -12, 0, 64, true, true, 0⟩).2 Op.usb_get_dev = 1 ∧
    occurrences (xbox_probe 0 ⟨true, true, -12, 0, 64, true, true, 0⟩).2 Op.usb_put_dev = 1 ∧
    occurrences (xbox_probe 0 ⟨true, true, -12, 0, 64, true, true, 0⟩).2
      Op.kfree_xbox_dev = 1 := by
  decide

/-- One completion whose resubmission is accepted, on a channel with one request
in flight: one more decode, one more submission, one request in flight again. -/
theorem complete_ok (c : Channel) (urb : Urb) (h : c.in_flight = 1) :
    Channel.complete c urb 0 = ⟨1, c.decodes + 1, c.submits + 1⟩ := by
  simp [Channel.complete, xbox_irq_in, Channel.apply, h]

/-- Completions whose resubmissions are all accepted, from any channel with
one request in flight. -/
theorem run_ok (cs : List (Urb × Int)) :
    ∀ c : Channel, c.in_flight = 1 → (∀ x ∈ cs, x.2 = 0) →
      Channel.run c cs = ⟨1, c.decodes + cs.length, c.submits + cs.length⟩ := by
  induction cs with
  | nil =>
    intro c h _
    cases c
    simp_all [Channel.run]
  | cons x xs ih =>
    intro c h hall
    have hx : x.2 = 0 := hall x (List.mem_cons_self x xs)
    have hxs : ∀ y ∈ xs, y.2 = 0 := fun y hy => hall y (List.mem_cons_of_mem x hy)
    have hstep : Channel.run c (x :: xs) = Channel.run (Channel.complete c x.1 x.2) xs := rfl
    rw [hstep, hx, complete_ok c x.1 h, ih _ rfl hxs]
    simp only [List.length_cons, Channel.mk.injEq, true_and]
    omega

/-- C9: after N consecutive completions whose resubmissions all succeed, the
callback has made exactly N decode calls and exactly N submissions; the calls
it made are, per completion, one decode of that completion's payload followed
by one submission; and after each completion (every prefix of the sequence)
exactly one request is in flight. -/
theorem irq_resubmission_invariant (cs : List (Urb × Int)) (h : ∀ x ∈ cs, x.2 = 0) :
    (Channel.run Channel.started cs).decodes = cs.length ∧
    (Channel.run Channel.started cs).submits = cs.length ∧
    (∀ k : Nat, (Channel.run Channel.started (cs.take k)).in_flight = 1) ∧
    irq_trace cs =
      cs.flatMap (fun x =>
        [ Op.xbox_parse_input
            (xbox_parse_input x.1.transfer_buffer (int_of_u32 x.1.actual_length)),
          Op.usb_submit_urb 0 ]) := by
  refine ⟨?_, ?_, ?_, ?_⟩
  · rw [run_ok cs Channel.started rfl h]
    simp [Channel.started]
  · rw [run_ok cs Channel.started rfl h]
    simp [Channel.started]
  · intro k
    rw [run_ok (cs.take k) Channel.started rfl (fun x hx => h x (List.mem_of_mem_take hx))]
  · unfold irq_trace
    induction cs with
    | nil => rfl
    | cons x xs ih =>
      have hx : x.2 = 0 := h x (List.mem_cons_self x xs)
      have hxs : ∀ y ∈ xs, y.2 = 0 := fun y hy => h y (List.mem_cons_of_mem x hy)
      simp only [List.flatMap_cons, ih hxs]
      simp [xbox_irq_in, hx]

/-- Witness for C9: three completions (a 6-byte report, an empty one, a 6-byte
report), each resubmitted successfully. -/
theorem irq_resubmission_invariant_witness :
    (∀ x ∈ [((⟨[0, 0, 0, 0, 1, 0], 6⟩ : Urb), (0 : Int)), (⟨[], 0⟩, 0),
        (⟨[0, 0, 0, 0, 0, 0], 6⟩, 0)], x.2 = 0) ∧
      (Channel.run Channel.started
        [((⟨[0, 0, 0, 0, 1, 0], 6⟩ : Urb), (0 : Int)), (⟨[], 0⟩, 0),
          (⟨[0, 0, 0, 0, 0, 0], 6⟩, 0)]).decodes = 3 :=
  ⟨by decide,
    (irq_resubmission_invariant
      [((⟨[0, 0, 0, 0, 1, 0], 6⟩ : Urb), (0 : Int)), (⟨[], 0⟩, 0),
        (⟨[0, 0, 0, 0, 0, 0], 6⟩, 0)] (by decide)).1⟩

/-- The capability declarations acquire and release nothing. -/
theorem setup_has_no_resource_call (op : Op)
    (h : op = Op.usb_get_dev ∨ op = Op.usb_put_dev ∨ op = Op.kzalloc true ∨
      op = Op.kfree_xbox_dev ∨ op = Op.kfree_irq_in_buffer ∨ op = Op.usb_free_urb ∨
      op = Op.input_unregister_device ∨ op = Op.input_allocate_device true ∨
      op = Op.usb_alloc_urb true ∨ ∃ n, op = Op.kmalloc n true) :
    xbox_input_setup.count op = 0 := by
  rw [List.count_eq_zero]
  intro hm
  rcases h with h | h | h | h | h | h | h | h | h | ⟨n, h⟩ <;> subst h <;>
    simp only [xbox_input_setup, List.mem_cons, reduceCtorEq, List.mem_nil_iff, or_self,
      or_false] at hm

/-- Every failing `xbox_probe` that got past the session allocation takes the
device reference once and puts it once, frees the session once, frees the
receive buffer and the request exactly when they were allocated, and calls
`input_unregister_device` exactly when the input device was allocated (be it
registered or not). -/
theorem probe_failure_balance (env : Env) (hk : env.kzalloc_ok = true)
    (hf : (xbox_probe 0 env).1 ≠ 0) :
    occurrences (xbox_probe 0 env).2 Op.usb_get_dev = 1 ∧
    occurrences (xbox_probe 0 env).2 Op.usb_put_dev = 1 ∧
    occurrences (xbox_probe 0 env).2 (Op.kzalloc true) = 1 ∧
    occurrences (xbox_probe 0 env).2 Op.kfree_xbox_dev = 1 ∧
    occurrences (xbox_probe 0 env).2 Op.kfree_irq_in_buffer =
      occurrences (xbox_probe 0 env).2 (Op.kmalloc env.maxp true) ∧
    occurrences (xbox_probe 0 env).2 Op.usb_free_urb =
      occurrences (xbox_probe 0 env).2 (Op.usb_alloc_urb true) ∧
    occurrences (xbox_probe 0 env).2 Op.input_unregister_device =
      occurrences (xbox_probe 0 env).2 (Op.input_allocate_device true) := by
  obtain ⟨a, b, r, m, p, k, u, sret⟩ := env
  simp only at hk
  subst hk
  have s1 := setup_has_no_resource_call Op.usb_get_dev (Or.inl rfl)
  have s2 := setup_has_no_resource_call Op.usb_put_dev (Or.inr (Or.inl rfl))
  have s3 := setup_has_no_resource_call (Op.kzalloc true) (Or.inr (Or.inr (Or.inl rfl)))
  have s4 := setup_has_no_resource_call Op.kfree_xbox_dev (Or.inr (Or.inr (Or.inr (Or.inl rfl))))
  have s5 := setup_has_no_resource_call Op.kfree_irq_in_buffer (Or.inr (Or.inr (Or.inr (Or.inr (Or.inl rfl)))))
  have s6 := setup_has_no_resource_call Op.usb_free_urb (Or.inr (Or.inr (Or.inr (Or.inr (Or.inr (Or.inl rfl))))))
  have s7 := setup_has_no_resource_call Op.input_unregister_device
    (Or.inr (Or.inr (Or.inr (Or.inr (Or.inr (Or.inr (Or.inl rfl)))))))
  have s8 := setup_has_no_resource_call (Op.input_allocate_device true)
    (Or.inr (Or.inr (Or.inr (Or.inr (Or.inr (Or.inr (Or.inr (Or.inl rfl))))))))
  have s9 := setup_has_no_resource_call (Op.usb_alloc_urb true)
    (Or.inr (Or.inr (Or.inr (Or.inr (Or.inr (Or.inr (Or.inr (Or.inr (Or.inl rfl)))))))))
  have s10 := setup_has_no_resource_call (Op.kmalloc p true)
    (Or.inr (Or.inr (Or.inr (Or.inr (Or.inr (Or.inr (Or.inr (Or.inr (Or.inr ⟨p, rfl⟩)))))))))
  generalize hp : xbox_probe 0 ⟨true, b, r, m, p, k, u, sret⟩ = res at hf ⊢
  unfold xbox_probe xbox_initialize_controller at hp
  simp only [unwind_fail, unwind_fail_input, unwind_fail_buffer, unwind_fail_urb, ENOMEM,
    ne_eq, not_true_eq_false, if_false, Bool.not_true, Bool.false_eq_true] at hp
  unfold occurrences
  have fin : ∀ t : List Op, t = res.2 →
      (List.count Op.usb_get_dev t = 1 ∧ List.count Op.usb_put_dev t = 1 ∧
        List.count (Op.kzalloc true) t = 1 ∧ List.count Op.kfree_xbox_dev t = 1 ∧
        List.count Op.kfree_irq_in_buffer t = List.count (Op.kmalloc p true) t ∧
        List.count Op.usb_free_urb t = List.count (Op.usb_alloc_urb true) t ∧
        List.count Op.input_unregister_device t =
          List.count (Op.input_allocate_device true) t) →
      (List.count Op.usb_get_dev res.2 = 1 ∧ List.count Op.usb_put_dev res.2 = 1 ∧
        List.count (Op.kzalloc true) res.2 = 1 ∧ List.count Op.kfree_xbox_dev res.2 = 1 ∧
        List.count Op.kfree_irq_in_buffer res.2 = List.count (Op.kmalloc p true) res.2 ∧
        List.count Op.usb_free_urb res.2 = List.count (Op.usb_alloc_urb true) res.2 ∧
        List.count Op.input_unregister_device res.2 =
          List.count (Op.input_allocate_device true) res.2) := by
    intro t ht hc
    rw [← ht]
    exact hc
  by_cases hb : b = true
  · subst hb
    simp only [Bool.not_true, Bool.false_eq_true, if_false] at hp
    by_cases hr : r = 0
    · subst hr
      simp only [not_true_eq_false, if_false] at hp
      by_cases hm : m < 0
      · have hm0 : ¬ m = 0 := by omega
        simp only [hm, if_true, hm0, not_false_eq_true] at hp
        refine fin _ (by rw [← hp]) ?_
        simp only [List.count_cons, List.count_append, List.count_nil, beq_iff_eq, reduceCtorEq,
          if_false, if_true, zero_add, add_zero, s1, s2, s3, s4, s5, s6, s7, s8, s9, s10,
          Nat.reduceAdd, and_self, Op.kzalloc.injEq, Op.input_allocate_device.injEq,
          Op.usb_alloc_urb.injEq, Op.kmalloc.injEq, Bool.false_eq_true, and_false]
      · simp only [hm, if_false, not_true_eq_false] at hp
        cases k
        · simp only [Bool.not_false, if_true] at hp
          refine fin _ (by rw [← hp]) ?_
          simp only [List.count_cons, List.count_append, List.count_nil, beq_iff_eq, reduceCtorEq,
            if_false, if_true, zero_add, add_zero, s1, s2, s3, s4, s5, s6, s7, s8, s9, s10,
            Nat.reduceAdd, and_self, Op.kzalloc.injEq, Op.input_allocate_device.injEq,
            Op.usb_alloc_urb.injEq, Op.kmalloc.injEq, Bool.false_eq_true, and_false]
        · simp only [Bool.not_true, Bool.false_eq_true, if_false] at hp
          cases u
          · simp only [Bool.not_false, if_true] at hp
            refine fin _ (by rw [← hp]) ?_
            simp only [List.count_cons, List.count_append, List.count_nil, beq_iff_eq, reduceCtorEq,
              if_false, if_true, zero_add, add_zero, s1, s2, s3, s4, s5, s6, s7, s8, s9, s10,
              Nat.reduceAdd, and_self, Op.kzalloc.injEq, Op.input_allocate_device.injEq,
              Op.usb_alloc_urb.injEq, Op.kmalloc.injEq, Bool.false_eq_true, and_false]
          · simp only [Bool.not_true, Bool.false_eq_true, if_false] at hp
            by_cases hs : sret = 0
            · subst hs
              simp only [not_true_eq_false, if_false] at hp
              rw [← hp] at hf
              exact absurd rfl hf
            · simp only [hs, not_false_eq_true, if_true] at hp
              refine fin _ (by rw [← hp]) ?_
              simp only [List.count_cons, List.count_append, List.count_nil, beq_iff_eq, reduceCtorEq,
                if_false, if_true, zero_add, add_zero, s1, s2, s3, s4, s5, s6, s7, s8, s9, s10,
                Nat.reduceAdd, and_self, Op.kzalloc.injEq, Op.input_allocate_device.injEq,
                Op.usb_alloc_urb.injEq, Op.kmalloc.injEq, Bool.false_eq_true, and_false]
    · simp only [hr, not_false_eq_true, if_true] at hp
      refine fin _ (by rw [← hp]) ?_
      simp only [List.count_cons, List.count_append, List.count_nil, beq_iff_eq, reduceCtorEq,
        if_false, if_true, zero_add, add_zero, s1, s2, s3, s4, s5, s6, s7, s8, s9, s10,
        Nat.reduceAdd, and_self, Op.kzalloc.injEq, Op.input_allocate_device.injEq,
        Op.usb_alloc_urb.injEq, Op.kmalloc.injEq, Bool.false_eq_true, and_false]
  · have hb' : b = false := by
      cases b
      · rfl
      · exact absurd rfl hb
    subst hb'
    simp only [Bool.not_false, if_true] at hp
    refine fin _ (by rw [← hp]) ?_
    simp only [List.count_cons, List.count_append, List.count_nil, beq_iff_eq, reduceCtorEq,
      if_false, if_true, zero_add, add_zero, s1, s2, s3, s4, s5, s6, s7, s8, s9, s10,
      Nat.reduceAdd, and_self, Op.kzalloc.injEq, Op.input_allocate_device.injEq,
      Op.usb_alloc_urb.injEq, Op.kmalloc.injEq, Bool.false_eq_true, and_false]
end XboxDriver
